import Mathlib

/-
A verification development for `fundgrube.py`, a poller that fetches
clearance postings, classifies them as new or already known against a
persisted CSV history, appends the new ones, and sends mail notifications
governed by a persisted "previous error" marker file.

The embedding is shallow and executable:
* `Posting` mirrors the `Posting` class; `Posting.get_direct_url` mirrors
  the f-string URL builder (Python renders `None` as the text "None").
* `RawPosting`/`mkPosting` mirror `Posting.__init__` called as
  `Posting(**post, base_url=...)`: a missing required key raises
  `TypeError`; a falsy `outlet` (None or empty dict) yields `outlet_id = None`.
* The history file is `Option (List Row)`: `none` means the file does not
  exist. `save_results` mirrors the append-mode CSV writer (a fresh file
  gets a header, then one data row per finding, in order).
  `read_results_from_csv` mirrors the `DictReader` loop that inserts
  `row['Id'] -> row['Date']` into a dict in file order, so a later row
  with the same id overwrites an earlier one. Timestamps are abstracted
  to `Nat`; `strftime`/`strptime` with the fixed format round-trip them.
* `mail_notify` mirrors the notifier: the guard
  `mail_sender and mail_password and (new_count > 0 or
  error.__class__.__name__ != old_error)`, the three branches, the marker
  file write happening before the SMTP transport runs, the marker removal
  (`os.remove`) also happening before the transport runs and raising
  `FileNotFoundError` when the marker file is absent. Errors are modelled
  by their class name; `error = None` has class name "NoneType".
  `send_ok` models whether the SMTP transport succeeds.
* `runStore` mirrors one cycle of the `__main__` orchestration over an
  already-fetched combined posting list: load the history if the file
  exists, run the novelty loop, and call `save_results` only when there
  is at least one finding.
-/

set_option autoImplicit false

namespace Fundgrube

/-- Python rendering of an optional string in an f-string: `None` prints as "None". -/
def pyStr : Option String → String
  | none => "None"
  | some s => s

/-- The `Posting` class: the fields stored by `Posting.__init__`. -/
structure Posting where
  base_url : String
  posting_id : String
  pim_id : String
  name : String
  original_url : String
  posting_text : String
  price : String
  shipping_cost : String
  discount_in_percent : String
  outlet_id : Option String
  deriving DecidableEq

/-- `Posting.get_direct_url`: the f-string
`f'{base_url}?outletIds={outlet_id}&text={pim_id}'`. -/
def Posting.get_direct_url (p : Posting) : String :=
  p.base_url ++ "?outletIds=" ++ pyStr p.outlet_id ++ "&text=" ++ p.pim_id

/-- `Posting.__str__`: `f'{name} - {price} (📦 {shipping_cost}) ({discount_in_percent} %)'`. -/
def Posting.toLine (p : Posting) : String :=
  p.name ++ " - " ++ p.price ++ " (📦 " ++ p.shipping_cost ++ ") (" ++ p.discount_in_percent ++ " %)"

/-- The value bound to the `outlet` key of a raw posting record: JSON null
or a JSON object (a Python dict). -/
inductive OutletVal where
  | pyNone
  | pyDict (entries : List (String × String))
  deriving DecidableEq

/-- Python truthiness of the outlet value: `None` and the empty dict are falsy. -/
def OutletVal.truthy : OutletVal → Bool
  | .pyNone => false
  | .pyDict entries => !entries.isEmpty

/-- Python `dict.get`: the value at the key, or `None` when absent. -/
def dictGet (entries : List (String × String)) (key : String) : Option String :=
  (entries.find? (fun e => e.1 == key)).map (fun e => e.2)

/-- `if outlet: self.outlet_id = outlet.get('id') else: self.outlet_id = None`. -/
def outletId : OutletVal → Option String
  | .pyNone => none
  | .pyDict entries => if entries.isEmpty then none else dictGet entries "id"

/-- A raw posting record as passed to `Posting(**post, ...)`: `none` in a
field means the key is absent from the record. -/
structure RawPosting where
  posting_id : Option String
  pim_id : Option String
  name : Option String
  original_url : Option String
  posting_text : Option String
  price : Option String
  shipping_cost : Option String
  discount_in_percent : Option String
  outlet : Option OutletVal
  deriving DecidableEq

/-- Calling `Posting(**post, base_url=base_url)`: every parameter of
`Posting.__init__` is required, so a record missing any of them raises
`TypeError`; otherwise the constructor body runs. -/
def mkPosting (base_url : String) (raw : RawPosting) : Except String Posting :=
  match raw.posting_id, raw.pim_id, raw.name, raw.original_url, raw.posting_text,
      raw.price, raw.shipping_cost, raw.discount_in_percent, raw.outlet with
  | some posting_id, some pim_id, some nm, some original_url, some posting_text,
      some price, some shipping_cost, some discount_in_percent, some outlet =>
    Except.ok
      { base_url := base_url, posting_id := posting_id, pim_id := pim_id, name := nm,
        original_url := original_url, posting_text := posting_text, price := price,
        shipping_cost := shipping_cost, discount_in_percent := discount_in_percent,
        outlet_id := outletId outlet }
  | _, _, _, _, _, _, _, _, _ => Except.error "TypeError"

/-- One CSV data row of the old-results file, columns Date, Id, Name, Price, Url. -/
structure Row where
  date : Nat
  id : String
  name : String
  price : String
  url : String
  deriving DecidableEq

/-- The row `save_results` writes for one finding. -/
def mkRow (now : Nat) (find : Posting) : Row :=
  { date := now, id := find.posting_id, name := find.name, price := find.price,
    url := find.get_direct_url }

/-- `save_results(findings, old_file)`: open in append mode (creating the
file if absent, writing the header first in that case) and write one row
per finding, in order, at the current timestamp. -/
def save_results (findings : List Posting) (now : Nat) (old_file : Option (List Row)) :
    Option (List Row) :=
  match old_file with
  | none => some (findings.map (mkRow now))
  | some rows => some (rows ++ findings.map (mkRow now))

/-- One step of the `DictReader` loop: `result_dict[row['Id']] = row['Date']`. -/
def dictInsert (m : String → Option Nat) (key : String) (val : Nat) : String → Option Nat :=
  fun j => if j = key then some val else m j

/-- The `DictReader` loop of `read_results_from_csv`, started from an
arbitrary dict. -/
def insertRows (m : String → Option Nat) (rows : List Row) : String → Option Nat :=
  rows.foldl (fun result_dict row => dictInsert result_dict row.id row.date) m

/-- `read_results_from_csv(old_file)`: fold the data rows into an empty
dict, so a later row with the same id overwrites an earlier one. -/
def read_results_from_csv (rows : List Row) : String → Option Nat :=
  insertRows (fun _ => none) rows

/-- The orchestration guard: `old_dict = read_results_from_csv(...)` when
the old-results file exists, else `old_dict = {}`. -/
def loadHistory : Option (List Row) → String → Option Nat
  | none => fun _ => none
  | some rows => read_results_from_csv rows

/-- The novelty loop of `__main__`: for each fetched posting in order,
`entry = old_dict.get(p.posting_id)`, and append `p` to `findings` iff
`entry is None` (history values are datetimes, never `None`). -/
def findingsLoop (fetched : List Posting) (old_dict : String → Option Nat) : List Posting :=
  fetched.foldl (fun findings p =>
    if old_dict p.posting_id = none then findings ++ [p] else findings) []

/-- The Novelty Classifier as the spec words it: the fetched postings whose
identifier is absent from the history, in fetch order. Stated from the
spec, to be compared with `findingsLoop`. -/
def classifySpec (fetched : List Posting) (history : String → Option Nat) : List Posting :=
  fetched.filter (fun p => (history p.posting_id).isNone)

/-- One orchestrator cycle over the already-fetched combined posting list:
load history, run the novelty loop, and `save_results` only when
`len(findings) > 0`. -/
def runStore (old_file : Option (List Row)) (now : Nat) (fetched : List Posting) :
    Option (List Row) :=
  let old_dict := loadHistory old_file
  let findings := findingsLoop fetched old_dict
  if findings.length > 0 then save_results findings now old_file else old_file

/-- A sequence of orchestrator cycles, each with its timestamp and its
combined fetched posting list. -/
def runsStore (old_file : Option (List Row)) (runs : List (Nat × List Posting)) :
    Option (List Row) :=
  runs.foldl (fun st r => runStore st r.1 r.2) old_file

/-- The data rows persisted in the store (none when the file does not exist). -/
def rowsOf : Option (List Row) → List Row
  | none => []
  | some rows => rows

/-- A mail message as handed to the SMTP transport. -/
structure MailMsg where
  subject : String
  body : String
  deriving DecidableEq

/-- The environment `mail_notify` reads: `MAIL_SENDER`, `MAIL_PASSWORD`,
`MAIL_RECEIVER` (each `none` when the variable is unset), and whether the
SMTP transport succeeds. -/
structure NotifyEnv where
  mail_sender : Option String
  mail_password : Option String
  mail_receiver : Option String
  send_ok : Bool
  deriving DecidableEq

/-- Python truthiness of `os.getenv`: unset or empty is falsy. -/
def pyTruthy : Option String → Bool
  | none => false
  | some s => !(s == "")

/-- The observable outcome of one `mail_notify` call: the messages handed
to the transport, the marker file content afterwards (`none` = absent),
and the exception that escaped the call, if any. -/
structure NotifyResult where
  sent : List MailMsg
  marker : Option String
  raised : Option String
  deriving DecidableEq

/-- `error.__class__.__name__` for an optional error: `None` is of class "NoneType". -/
def pyClassName : Option String → String
  | none => "NoneType"
  | some kind => kind

/-- The mail body of the new-items branch:
`" \n".join(f'{post}: {post.get_direct_url()}\n' for post in posting_list)`. -/
def postingLines (posting_list : List Posting) : String :=
  String.intercalate " \n"
    (posting_list.map (fun post => post.toLine ++ ": " ++ post.get_direct_url ++ "\n"))

/-- `mail_notify(new_count, posting_list, error)`, with the persisted marker
and the environment made explicit. Errors are modelled by their class
name. The branch structure follows the source: the guard is
`mail_sender and mail_password and (new_count > 0 or
error.__class__.__name__ != old_error)`; in the error branch the marker is
written before the transport runs; in the error-fixed branch `os.remove`
runs before the transport, raising `FileNotFoundError` when the marker
file is absent; a transport failure raises `SMTPException` after any
marker write or removal already happened. -/
def mail_notify (env : NotifyEnv) (old_error : Option String) (new_count : Nat)
    (posting_list : List Posting) (error : Option String) : NotifyResult :=
  if pyTruthy env.mail_sender = true ∧ pyTruthy env.mail_password = true ∧
      (new_count > 0 ∨ old_error ≠ some (pyClassName error)) then
    let receiver := env.mail_receiver.getD (pyStr env.mail_sender)
    let decorate : String → String := fun subject =>
      if pyStr env.mail_sender = receiver then "Fundgrube: " ++ subject else subject
    match error with
    | some kind =>
      let msg : MailMsg := { subject := decorate "An error occured", body := kind }
      if env.send_ok then
        { sent := [msg], marker := some kind, raised := none }
      else
        { sent := [], marker := some kind, raised := some "SMTPException" }
    | none =>
      if new_count > 0 then
        let msg : MailMsg :=
          { subject := decorate (toString new_count ++ " new items"),
            body := postingLines posting_list }
        if env.send_ok then
          { sent := [msg], marker := old_error, raised := none }
        else
          { sent := [], marker := old_error, raised := some "SMTPException" }
      else
        match old_error with
        | none => { sent := [], marker := none, raised := some "FileNotFoundError" }
        | some _ =>
          let msg : MailMsg := { subject := decorate "Error fixed", body := "Previous error fixed" }
          if env.send_ok then
            { sent := [msg], marker := none, raised := none }
          else
            { sent := [], marker := none, raised := some "SMTPException" }
  else
    { sent := [], marker := old_error, raised := none }

/-- The mediamarkt endpoint base URL from `__main__`. -/
def base_mm : String := "https://www.mediamarkt.de/de/data/fundgrube"

/-- The saturn endpoint base URL from `__main__`. -/
def base_sa : String := "https://www.saturn.de/de/data/fundgrube"

/-- A concrete posting with identifier "A" as fetched from the mediamarkt endpoint. -/
def pA_mm : Posting :=
  { base_url := base_mm, posting_id := "A", pim_id := "11", name := "Game A",
    original_url := "url", posting_text := "text", price := "9.99",
    shipping_cost := "0.00", discount_in_percent := "50", outlet_id := some "5" }

/-- The same posting as fetched from the saturn endpoint in the same run. -/
def pA_sa : Posting := { pA_mm with base_url := base_sa }

/-- A concrete persisted row for identifier "B" at timestamp 1. -/
def rowB : Row := { date := 1, id := "B", name := "Game B", price := "1.00", url := "u" }

/-- A concrete environment with mail credentials configured and a working transport. -/
def env0 : NotifyEnv :=
  { mail_sender := some "sender@example.com", mail_password := some "hunter2",
    mail_receiver := none, send_ok := true }

/-- A concrete environment with mail credentials configured and a failing transport. -/
def envFail : NotifyEnv :=
  { mail_sender := some "sender@example.com", mail_password := some "hunter2",
    mail_receiver := none, send_ok := false }

/-- A concrete raw posting record whose `outlet` key is absent. -/
def rawNoOutlet : RawPosting :=
  { posting_id := some "A", pim_id := some "11", name := some "Game A",
    original_url := some "url", posting_text := some "text", price := some "9.99",
    shipping_cost := some "0.00", discount_in_percent := some "50", outlet := none }

/-- A concrete raw posting record whose `outlet` key holds an empty dict (falsy). -/
def rawEmptyOutlet : RawPosting := { rawNoOutlet with outlet := some (OutletVal.pyDict []) }

/-- The posting that `Posting(**rawEmptyOutlet, base_url=base_mm)` constructs. -/
def pEmptyOutlet : Posting :=
  { base_url := base_mm, posting_id := "A", pim_id := "11", name := "Game A",
    original_url := "url", posting_text := "text", price := "9.99",
    shipping_cost := "0.00", discount_in_percent := "50", outlet_id := none }

/-! ## Lemmas about the history store and the novelty loop -/

/-- The novelty loop started from an arbitrary accumulator appends exactly the
postings whose identifier is absent from the dict, in order. -/
theorem findingsLoop_foldl (fetched : List Posting) (old_dict : String → Option Nat)
    (acc : List Posting) :
    fetched.foldl (fun findings p =>
        if old_dict p.posting_id = none then findings ++ [p] else findings) acc
      = acc ++ fetched.filter (fun p => (old_dict p.posting_id).isNone) := by
  induction fetched generalizing acc with
  | nil => simp
  | cons p ps ih =>
    simp only [List.foldl_cons, List.filter_cons]
    by_cases h : old_dict p.posting_id = none
    · rw [if_pos h, ih]
      simp [Option.isNone_iff_eq_none, h]
    · rw [if_neg h, ih]
      simp [Option.isNone_iff_eq_none, h]

/-- The novelty loop is the filter by absence from the history. -/
theorem findingsLoop_eq_filter (fetched : List Posting) (old_dict : String → Option Nat) :
    findingsLoop fetched old_dict
      = fetched.filter (fun p => (old_dict p.posting_id).isNone) := by
  rw [findingsLoop, findingsLoop_foldl, List.nil_append]

theorem insertRows_nil (m : String → Option Nat) : insertRows m [] = m := rfl

theorem insertRows_cons (m : String → Option Nat) (row : Row) (rows : List Row) :
    insertRows m (row :: rows) = insertRows (dictInsert m row.id row.date) rows := rfl

theorem insertRows_append (m : String → Option Nat) (rows₁ rows₂ : List Row) :
    insertRows m (rows₁ ++ rows₂) = insertRows (insertRows m rows₁) rows₂ := by
  simp [insertRows, List.foldl_append]

/-- Inserting rows does not change the value at an id none of them carries. -/
theorem insertRows_not_mem (m : String → Option Nat) (rows : List Row) (i : String)
    (h : i ∉ rows.map Row.id) : insertRows m rows i = m i := by
  induction rows generalizing m with
  | nil => rfl
  | cons row rows ih =>
    simp only [List.map_cons, List.mem_cons] at h
    push_neg at h
    rw [insertRows_cons, ih _ h.2]
    simp [dictInsert, h.1]

/-- Inserting rows that all carry timestamp `t` binds each of their ids to `t`. -/
theorem insertRows_mem_const (m : String → Option Nat) (rows : List Row) (t : Nat) (i : String)
    (hall : ∀ r ∈ rows, r.date = t) (h : i ∈ rows.map Row.id) :
    insertRows m rows i = some t := by
  induction rows generalizing m with
  | nil => simp at h
  | cons row rows ih =>
    rw [insertRows_cons]
    by_cases hm : i ∈ rows.map Row.id
    · exact ih _ (fun r hr => hall r (List.mem_cons_of_mem _ hr)) hm
    · rw [insertRows_not_mem _ _ _ hm]
      simp only [List.map_cons, List.mem_cons] at h
      rcases h with h | h
      · simp [dictInsert, h, hall row (List.mem_cons_self _ _)]
      · exact absurd h hm

/-- The dict built from rows is `none` at an id exactly when no row carries it
(and the starting dict is `none` there). -/
theorem insertRows_eq_none_iff (m : String → Option Nat) (rows : List Row) (i : String) :
    insertRows m rows i = none ↔ i ∉ rows.map Row.id ∧ m i = none := by
  induction rows generalizing m with
  | nil => simp [insertRows]
  | cons row rows ih =>
    rw [insertRows_cons, ih]
    simp only [List.map_cons, List.mem_cons, dictInsert]
    constructor
    · rintro ⟨h1, h2⟩
      by_cases hi : i = row.id
      · rw [if_pos hi] at h2
        exact absurd h2 (by simp)
      · rw [if_neg hi] at h2
        exact ⟨by simp [hi, h1], h2⟩
    · rintro ⟨h1, h2⟩
      rw [not_or] at h1
      exact ⟨h1.2, by simp [h1.1, h2]⟩

/-- The orchestrator's loaded history is `none` at an id exactly when no
persisted row carries that id. -/
theorem loadHistory_eq_none_iff (old_file : Option (List Row)) (i : String) :
    loadHistory old_file i = none ↔ i ∉ (rowsOf old_file).map Row.id := by
  cases old_file with
  | none => simp [loadHistory, rowsOf]
  | some rows => simp [loadHistory, rowsOf, read_results_from_csv, insertRows_eq_none_iff]

/-- Loading through the orchestrator's exists-guard equals reading the data rows. -/
theorem loadHistory_eq_read (old_file : Option (List Row)) :
    loadHistory old_file = read_results_from_csv (rowsOf old_file) := by
  cases old_file <;> rfl

/-- The data rows after `save_results` are the old rows plus one row per finding. -/
theorem rowsOf_save_results (findings : List Posting) (now : Nat) (old_file : Option (List Row)) :
    rowsOf (save_results findings now old_file) = rowsOf old_file ++ findings.map (mkRow now) := by
  cases old_file <;> simp [save_results, rowsOf]

/-- The ids of the rows written for the findings are the findings' posting ids. -/
theorem map_id_mkRow (findings : List Posting) (now : Nat) :
    (findings.map (mkRow now)).map Row.id = findings.map Posting.posting_id := by
  rw [List.map_map]
  rfl

/-- One orchestrator cycle preserves distinctness of the persisted ids,
provided the ids fetched in that cycle are pairwise distinct. -/
theorem runStore_nodup (old_file : Option (List Row)) (now : Nat) (fetched : List Posting)
    (hst : ((rowsOf old_file).map Row.id).Nodup)
    (hf : (fetched.map Posting.posting_id).Nodup) :
    ((rowsOf (runStore old_file now fetched)).map Row.id).Nodup := by
  rw [runStore]
  by_cases hlen : (findingsLoop fetched (loadHistory old_file)).length > 0
  · rw [if_pos hlen, rowsOf_save_results, List.map_append, map_id_mkRow, List.nodup_append]
    refine ⟨hst, ?_, ?_⟩
    · have hsub : List.Sublist (findingsLoop fetched (loadHistory old_file)) fetched := by
        rw [findingsLoop_eq_filter]
        exact List.filter_sublist _
      exact hf.sublist (hsub.map Posting.posting_id)
    · intro a ha hb
      rcases List.mem_map.mp hb with ⟨p, hp, rfl⟩
      have hpf : loadHistory old_file p.posting_id = none := by
        rw [findingsLoop_eq_filter] at hp
        have := (List.mem_filter.mp hp).2
        simpa [Option.isNone_iff_eq_none] using this
      rw [loadHistory_eq_none_iff] at hpf
      exact hpf ha
  · rw [if_neg hlen]
    exact hst

/-- A sequence of orchestrator cycles preserves distinctness of the persisted
ids, provided each cycle's fetched ids are pairwise distinct. -/
theorem runsStore_nodup (runs : List (Nat × List Posting)) (old_file : Option (List Row))
    (hst : ((rowsOf old_file).map Row.id).Nodup)
    (h : ∀ r ∈ runs, (r.2.map Posting.posting_id).Nodup) :
    ((rowsOf (runsStore old_file runs)).map Row.id).Nodup := by
  induction runs generalizing old_file with
  | nil => exact hst
  | cons r rs ih =>
    show ((rowsOf (runsStore (runStore old_file r.1 r.2) rs)).map Row.id).Nodup
    exact ih _ (runStore_nodup _ _ _ hst (h r (List.mem_cons_self _ _)))
      (fun s hs => h s (List.mem_cons_of_mem _ hs))

/-! ## Claims -/

/-- C1, counterexample: the orchestrator performs no within-run
deduplication. With an empty history, one run whose combined fetch returns
the same identifier "A" from both endpoints appends two records with
identifier "A", so the persisted store does contain two records with the
same posting identifier. -/
theorem run_duplicate_ids_counterexample :
    (rowsOf (runStore none 0 [pA_mm, pA_sa])).map Row.id = ["A", "A"]
    ∧ ¬ ((rowsOf (runStore none 0 [pA_mm, pA_sa])).map Row.id).Nodup := by
  constructor
  · rfl
  · decide

/-- C1, amended: an identifier already present in the loaded history is never
appended again, so for any sequence of runs in which each run's combined
fetch carries pairwise-distinct identifiers, the persisted History Store
never contains two records with the same identifier. (The unamended claim
fails because nothing deduplicates within a run; see the counterexample.) -/
theorem runs_no_duplicate_ids (runs : List (Nat × List Posting))
    (h : ∀ r ∈ runs, (r.2.map Posting.posting_id).Nodup) :
    ((rowsOf (runsStore none runs)).map Row.id).Nodup :=
  runsStore_nodup runs none (by simp [rowsOf]) h

/-- C1, witness for the amended claim at a concrete single run. -/
theorem runs_no_duplicate_ids_witness :
    (∀ r ∈ [((0 : Nat), [pA_mm])], (r.2.map Posting.posting_id).Nodup)
    ∧ ((rowsOf (runsStore none [((0 : Nat), [pA_mm])])).map Row.id).Nodup :=
  ⟨by decide, runs_no_duplicate_ids [((0 : Nat), [pA_mm])] (by decide)⟩

/-- C2: the novelty loop returns exactly those fetched postings whose
identifier is absent from the history, in the same relative order in which
they were fetched (it equals the spec's filter and is a sublist of the
fetch), and it is total over any input by construction. -/
theorem findingsLoop_classifies (fetched : List Posting) (history : String → Option Nat) :
    findingsLoop fetched history = classifySpec fetched history
    ∧ List.Sublist (findingsLoop fetched history) fetched
    ∧ ∀ p : Posting,
        p ∈ findingsLoop fetched history ↔ p ∈ fetched ∧ history p.posting_id = none := by
  have key : findingsLoop fetched history = classifySpec fetched history :=
    findingsLoop_eq_filter fetched history
  refine ⟨key, ?_, ?_⟩
  · rw [key]
    exact List.filter_sublist _
  · intro p
    rw [key]
    simp [classifySpec, Option.isNone_iff_eq_none]

/-- C5: loading after appending `n` fresh, pairwise-distinct postings at
timestamp `now` yields the prior mapping extended with exactly those ids,
each bound to `now`; no previously loaded record is removed or altered. -/
theorem append_then_load (old_file : Option (List Row)) (findings : List Posting) (now : Nat)
    (_hnd : (findings.map Posting.posting_id).Nodup)
    (hfresh : ∀ p ∈ findings, loadHistory old_file p.posting_id = none) :
    (∀ i, loadHistory (save_results findings now old_file) i
        = if i ∈ findings.map Posting.posting_id then some now else loadHistory old_file i)
    ∧ ∀ i, loadHistory old_file i ≠ none →
        loadHistory (save_results findings now old_file) i = loadHistory old_file i := by
  have hdates : ∀ r ∈ findings.map (mkRow now), r.date = now := by
    intro r hr
    rcases List.mem_map.mp hr with ⟨p, _, rfl⟩
    rfl
  have key : ∀ i, loadHistory (save_results findings now old_file) i
      = if i ∈ findings.map Posting.posting_id then some now else loadHistory old_file i := by
    intro i
    rw [loadHistory_eq_read, rowsOf_save_results, read_results_from_csv, insertRows_append]
    by_cases hm : i ∈ findings.map Posting.posting_id
    · rw [if_pos hm]
      exact insertRows_mem_const _ _ now i hdates (by rw [map_id_mkRow]; exact hm)
    · rw [if_neg hm, insertRows_not_mem _ _ _ (by rw [map_id_mkRow]; exact hm)]
      rw [loadHistory_eq_read old_file]
      rfl
  refine ⟨key, ?_⟩
  intro i hne
  rw [key i]
  by_cases hm : i ∈ findings.map Posting.posting_id
  · exfalso
    rcases List.mem_map.mp hm with ⟨p, hp, rfl⟩
    exact hne (hfresh p hp)
  · rw [if_neg hm]

/-- C5, witness: appending the fresh posting "A" at timestamp 5 over a store
holding "B" at timestamp 1 binds "A" to 5 and leaves "B" at 1. -/
theorem append_then_load_witness :
    ([pA_mm].map Posting.posting_id).Nodup
    ∧ (∀ p ∈ [pA_mm], loadHistory (some [rowB]) p.posting_id = none)
    ∧ loadHistory (save_results [pA_mm] 5 (some [rowB])) "A" = some 5
    ∧ loadHistory (save_results [pA_mm] 5 (some [rowB])) "B" = some 1 := by
  have h := append_then_load (some [rowB]) [pA_mm] 5 (by decide) (by decide)
  refine ⟨by decide, by decide, ?_, ?_⟩
  · have h1 := h.1 "A"
    rw [if_pos (by decide)] at h1
    exact h1
  · have h2 := h.1 "B"
    rw [if_neg (by decide)] at h2
    rw [h2]
    decide

/-- C6: appending an empty sequence of postings leaves every persisted data
row present and unchanged, and the subsequently loaded mapping is unchanged
(the call is harmless; at most the file and its header come to exist). -/
theorem append_empty_noop (old_file : Option (List Row)) (now : Nat) :
    rowsOf (save_results [] now old_file) = rowsOf old_file
    ∧ ∀ i, loadHistory (save_results [] now old_file) i = loadHistory old_file i := by
  constructor
  · cases old_file <;> simp [save_results, rowsOf]
  · intro i
    rw [loadHistory_eq_read, rowsOf_save_results, loadHistory_eq_read]
    simp

/-- C8: the mapping `read_results_from_csv` returns binds each identifier to
the timestamp of the last row carrying it: a later row silently overwrites
an earlier row with the same id (and an id with no row maps to nothing). -/
theorem read_results_last_wins (rows : List Row) (i : String) :
    read_results_from_csv rows i
      = ((rows.filter (fun r => r.id == i)).map Row.date).getLast? := by
  induction rows using List.reverseRecOn with
  | nil => rfl
  | append_singleton rows row ih =>
    rw [read_results_from_csv, insertRows_append, insertRows_cons, insertRows_nil]
    by_cases hi : i = row.id
    · rw [List.filter_append]
      have hfil : List.filter (fun r => r.id == i) [row] = [row] := by simp [hi]
      rw [hfil, List.map_append]
      simp [dictInsert, hi]
    · rw [List.filter_append]
      have hb : (row.id == i) = false := by
        rw [beq_eq_false_iff_ne]
        exact fun hc => hi hc.symm
      have hfil : List.filter (fun r => r.id == i) [row] = [] := by
        simp [List.filter_cons, hb]
      rw [hfil, List.append_nil, dictInsert]
      rw [if_neg hi]
      exact ih

/-- C3: with credentials configured and a working transport, for any error
kind `k` (an exception class name, so never "NoneType"): a run failing with
`k` while the marker is absent or different sends exactly one notification
and sets the marker to `k`; a next run failing with `k` again sends nothing
and leaves the marker at `k`; a next successful run with no new items sends
exactly one "Previous error fixed" notification and clears the marker; and
a later recurrence of `k` alerts again. -/
theorem error_suppression_cycle (env : NotifyEnv) (k : String) (marker : Option String)
    (hs : pyTruthy env.mail_sender = true) (hp : pyTruthy env.mail_password = true)
    (hok : env.send_ok = true) (hk : k ≠ "NoneType") (hm : marker ≠ some k) :
    (mail_notify env marker 0 [] (some k)).sent.length = 1
    ∧ (mail_notify env marker 0 [] (some k)).marker = some k
    ∧ (mail_notify env (some k) 0 [] (some k)).sent = []
    ∧ (mail_notify env (some k) 0 [] (some k)).marker = some k
    ∧ (mail_notify env (some k) 0 [] none).sent.length = 1
    ∧ (mail_notify env (some k) 0 [] none).sent.map MailMsg.body = ["Previous error fixed"]
    ∧ (mail_notify env (some k) 0 [] none).marker = none
    ∧ (mail_notify env none 0 [] (some k)).sent.length = 1
    ∧ (mail_notify env none 0 [] (some k)).marker = some k := by
  refine ⟨?_, ?_, ?_, ?_, ?_, ?_, ?_, ?_, ?_⟩
  · rw [mail_notify, if_pos ⟨hs, hp, Or.inr hm⟩]
    simp [hok]
  · rw [mail_notify, if_pos ⟨hs, hp, Or.inr hm⟩]
    simp [hok]
  · rw [mail_notify, if_neg]
    rintro ⟨-, -, hg | hg⟩
    · exact absurd hg (by decide)
    · exact hg rfl
  · rw [mail_notify, if_neg]
    rintro ⟨-, -, hg | hg⟩
    · exact absurd hg (by decide)
    · exact hg rfl
  · rw [mail_notify, if_pos ⟨hs, hp, Or.inr (by simp [pyClassName, hk])⟩]
    simp [hok]
  · rw [mail_notify, if_pos ⟨hs, hp, Or.inr (by simp [pyClassName, hk])⟩]
    simp [hok]
  · rw [mail_notify, if_pos ⟨hs, hp, Or.inr (by simp [pyClassName, hk])⟩]
    simp [hok]
  · rw [mail_notify, if_pos ⟨hs, hp, Or.inr (by simp [pyClassName])⟩]
    simp [hok]
  · rw [mail_notify, if_pos ⟨hs, hp, Or.inr (by simp [pyClassName])⟩]
    simp [hok]

/-- C3, witness: the cycle run concretely with kind "FetchError" from an
absent marker. -/
theorem error_suppression_cycle_witness :
    (pyTruthy env0.mail_sender = true ∧ pyTruthy env0.mail_password = true
      ∧ env0.send_ok = true ∧ "FetchError" ≠ "NoneType"
      ∧ (none : Option String) ≠ some "FetchError")
    ∧ (mail_notify env0 none 0 [] (some "FetchError")).marker = some "FetchError"
    ∧ (mail_notify env0 (some "FetchError") 0 [] (some "FetchError")).sent = []
    ∧ (mail_notify env0 (some "FetchError") 0 [] none).marker = none := by
  have h := error_suppression_cycle env0 "FetchError" none rfl rfl rfl (by decide) (by decide)
  exact ⟨⟨rfl, rfl, rfl, by decide, by decide⟩, h.2.1, h.2.2.1, h.2.2.2.2.2.2.1⟩

/-- C4: the code diverges from the claim at the failing input. With
credentials configured, marker absent, `new_count = 0` and no error, the
guard `error.__class__.__name__ != old_error` compares "NoneType" against
`None` and passes, so `mail_notify` takes the "Error fixed" branch and
raises `FileNotFoundError` from `os.remove` on the absent marker file,
instead of being the silent no-notification no-op the claim describes. -/
theorem no_change_no_marker_crash :
    mail_notify env0 none 0 [] none
      = { sent := [], marker := none, raised := some "FileNotFoundError" } := by
  decide

/-- C7: when the mail sender or the mail password is absent, `mail_notify`
is a silent no-op for every marker state, count, posting list and error:
nothing is sent, nothing is raised, and the marker is unchanged. -/
theorem missing_credentials_noop (env : NotifyEnv) (old_error : Option String)
    (new_count : Nat) (posting_list : List Posting) (error : Option String)
    (h : env.mail_sender = none ∨ env.mail_password = none) :
    mail_notify env old_error new_count posting_list error
      = { sent := [], marker := old_error, raised := none } := by
  rw [mail_notify, if_neg]
  rintro ⟨hs, hp, -⟩
  rcases h with h | h
  · rw [h] at hs
    exact absurd hs (by decide)
  · rw [h] at hp
    exact absurd hp (by decide)

/-- C7, witness: no sender configured, yet an error and a standing marker. -/
theorem missing_credentials_noop_witness :
    ((NotifyEnv.mk none (some "hunter2") none true).mail_sender = none
      ∨ (NotifyEnv.mk none (some "hunter2") none true).mail_password = none)
    ∧ mail_notify (NotifyEnv.mk none (some "hunter2") none true)
        (some "FetchError") 3 [pA_mm] none
      = { sent := [], marker := some "FetchError", raised := none } :=
  ⟨Or.inl rfl, missing_credentials_noop _ _ _ _ _ (Or.inl rfl)⟩

/-- C9: in the error branch the marker file is written before the SMTP
transport runs, so when the transport fails the marker is nonetheless left
set to the error kind `k` (nothing was delivered, `SMTPException` escapes),
and a later run with credentials that fails with the same kind `k` against
marker `k` sends nothing. -/
theorem marker_written_before_send (env : NotifyEnv) (old_error : Option String)
    (new_count : Nat) (posting_list : List Posting) (k : String)
    (hs : pyTruthy env.mail_sender = true) (hp : pyTruthy env.mail_password = true)
    (hfail : env.send_ok = false) (hg : new_count > 0 ∨ old_error ≠ some k) :
    (mail_notify env old_error new_count posting_list (some k)).sent = []
    ∧ (mail_notify env old_error new_count posting_list (some k)).marker = some k
    ∧ (mail_notify env old_error new_count posting_list (some k)).raised = some "SMTPException"
    ∧ ∀ env2 : NotifyEnv, pyTruthy env2.mail_sender = true →
        pyTruthy env2.mail_password = true →
        mail_notify env2 (some k) 0 [] (some k)
          = { sent := [], marker := some k, raised := none } := by
  refine ⟨?_, ?_, ?_, ?_⟩
  · rw [mail_notify, if_pos ⟨hs, hp, hg⟩]
    simp [hfail]
  · rw [mail_notify, if_pos ⟨hs, hp, hg⟩]
    simp [hfail]
  · rw [mail_notify, if_pos ⟨hs, hp, hg⟩]
    simp [hfail]
  · intro env2 h2s h2p
    rw [mail_notify, if_neg]
    rintro ⟨-, -, hg2 | hg2⟩
    · exact absurd hg2 (by decide)
    · exact hg2 rfl

/-- C9, witness: failing transport, marker absent, error kind "FetchError". -/
theorem marker_written_before_send_witness :
    (pyTruthy envFail.mail_sender = true ∧ pyTruthy envFail.mail_password = true
      ∧ envFail.send_ok = false
      ∧ ((0 : Nat) > 0 ∨ (none : Option String) ≠ some "FetchError"))
    ∧ (mail_notify envFail none 0 [] (some "FetchError")).sent = []
    ∧ (mail_notify envFail none 0 [] (some "FetchError")).marker = some "FetchError" := by
  have h := marker_written_before_send envFail none 0 [] "FetchError" rfl rfl rfl
    (Or.inr (by decide))
  exact ⟨⟨rfl, rfl, rfl, Or.inr (by decide)⟩, h.1, h.2.1⟩

/-- A falsy outlet value (JSON null or empty dict) yields no outlet id. -/
theorem outletId_falsy (v : OutletVal) (h : v.truthy = false) : outletId v = none := by
  cases v with
  | pyNone => rfl
  | pyDict entries =>
    simp [OutletVal.truthy] at h
    simp [outletId, h]

/-- C10, counterexample: a raw record whose `outlet` key is absent does not
construct a Posting with `outlet_id = None` at all — `Posting.__init__` is
missing a required argument, so construction raises `TypeError` and no
direct URL is ever derived, contradicting the claimed totality for absent
outlet fields. -/
theorem outlet_absent_raises :
    mkPosting base_mm rawNoOutlet = Except.error "TypeError"
    ∧ ∀ p : Posting, mkPosting base_mm rawNoOutlet ≠ Except.ok p := by
  refine ⟨rfl, ?_⟩
  intro p h
  rw [show mkPosting base_mm rawNoOutlet = Except.error "TypeError" from rfl] at h
  exact Except.noConfusion h

/-- C10, amended: for every Posting successfully constructed from a raw
record whose `outlet` field is present but falsy (None or an empty dict),
the outlet identifier is `None` and the derived direct URL is total,
rendering the literal text "None" as the outlet parameter; a record whose
`outlet` key is absent altogether instead fails construction with
`TypeError` (see the counterexample). -/
theorem outlet_falsy_url (base_url : String) (raw : RawPosting) (v : OutletVal) (p : Posting)
    (hout : raw.outlet = some v) (hfalsy : v.truthy = false)
    (hmk : mkPosting base_url raw = Except.ok p) :
    p.outlet_id = none
    ∧ p.get_direct_url = base_url ++ "?outletIds=" ++ "None" ++ "&text=" ++ p.pim_id := by
  rw [mkPosting.eq_def] at hmk
  split at hmk
  · rename_i pid pim nm ourl ptext pr ship disc out hpid hpim hnm hourl hptext hpr hship hdisc hout2
    rw [Except.ok.injEq] at hmk
    subst hmk
    rw [hout] at hout2
    rw [Option.some.injEq] at hout2
    subst hout2
    constructor
    · exact outletId_falsy v hfalsy
    · simp [Posting.get_direct_url, outletId_falsy v hfalsy, pyStr]
  · exact absurd hmk (by simp)

/-- C10, witness for the amended claim: the record with an empty outlet dict
constructs `pEmptyOutlet`, whose outlet id is `None` and whose direct URL
carries "outletIds=None". -/
theorem outlet_falsy_url_witness :
    (rawEmptyOutlet.outlet = some (OutletVal.pyDict [])
      ∧ (OutletVal.pyDict []).truthy = false
      ∧ mkPosting base_mm rawEmptyOutlet = Except.ok pEmptyOutlet)
    ∧ pEmptyOutlet.outlet_id = none
    ∧ pEmptyOutlet.get_direct_url
        = base_mm ++ "?outletIds=" ++ "None" ++ "&text=" ++ pEmptyOutlet.pim_id := by
  have h := outlet_falsy_url base_mm rawEmptyOutlet (OutletVal.pyDict []) pEmptyOutlet
    rfl rfl rfl
  exact ⟨⟨rfl, rfl, rfl⟩, h.1, h.2⟩

end Fundgrube
